import Mathlib

/-!
Verification of the pathfinder extension (`src/extension.ts`).

The source is a small event-subscription shim: on each host event it
recomputes an "active path" and an "active folder" string and overwrites two
fixed files with them. We embed the host state, the resolver
(`resolveActivePath`, `getFolder`), the write helper (`tryWrite`) and the
event wiring of `activate` as pure Lean functions, with the duck-typed tab
input modelled so that each field access may be absent or may throw
(`JsField.raise`), and the `try { ... } catch` block of the source modelled
with `Except`.
-/

namespace Pathfinder

/-- A field access on a duck-typed (untrusted, `any`-typed) JavaScript
object: the field may hold a value of the expected shape, may be
absent/falsy/of the wrong type, or its access may throw. -/
inductive JsField (α : Type) where
  | absent
  | raise
  | val (a : α)
deriving DecidableEq, Repr

/-- A duck-typed object carrying an `fsPath` field; `val p` means `fsPath`
is the string `p` (`typeof input.uri.fsPath === 'string'` holds). -/
structure UriObj where
  fsPath : JsField String
deriving DecidableEq, Repr

/-- A duck-typed object carrying a nested `uri` field (`input.resource`). -/
structure ResourceObj where
  uri : JsField UriObj
deriving DecidableEq, Repr

/-- A duck-typed object carrying a `uri` field (`input.options`). -/
structure OptionsObj where
  uri : JsField UriObj
deriving DecidableEq, Repr

/-- The polymorphic `activeTab.input` object probed by the source. -/
structure TabInput where
  uri : JsField UriObj
  resource : JsField ResourceObj
  options : JsField OptionsObj
deriving DecidableEq, Repr

/-- A tab: `input` is `none` when `activeTab.input` is falsy, `label` is
`some s` when `typeof activeTab.label === 'string'` with value `s`. -/
structure Tab where
  input : Option TabInput
  label : Option String
deriving DecidableEq, Repr

/-- A tab group with its (possibly undefined) active tab. -/
structure TabGroup where
  activeTab : Option Tab
deriving DecidableEq, Repr

/-- A typed host API Uri (`vscode.Uri`): `fsPath` is always a string. -/
structure Uri where
  fsPath : String
deriving DecidableEq, Repr

/-- A text document; `uri` is `none` when `document.uri` is falsy. -/
structure TextDocument where
  uri : Option Uri
deriving DecidableEq, Repr

/-- A text editor; `document` is `none` when `editor.document` is falsy. -/
structure TextEditor where
  document : Option TextDocument
deriving DecidableEq, Repr

/-- A workspace root folder (typed API: `uri` always present). -/
structure WorkspaceFolder where
  uri : Uri
deriving DecidableEq, Repr

/-- The host (VS Code) state read by the resolver. -/
structure HostState where
  activeTextEditor : Option TextEditor
  activeTabGroup : Option TabGroup
  workspaceFolders : Option (List WorkspaceFolder)
deriving DecidableEq, Repr

/-- `vscode.window.activeTextEditor?.document?.uri` (optional chaining). -/
def editorUri (s : HostState) : Option Uri :=
  match s.activeTextEditor with
  | none => none
  | some ed =>
    match ed.document with
    | none => none
    | some doc => doc.uri

/-- `getFolder` of the source: first workspace folder's `fsPath`, else
the literal placeholder. -/
def getFolder (s : HostState) : String :=
  match s.workspaceFolders with
  | some (f :: _) => f.uri.fsPath
  | some [] => "~"
  | none => "~"

/-- Probe 2a of the source:
`if (input.uri && typeof input.uri.fsPath === 'string') return input.uri.fsPath`.
A `raise` at either access propagates as an exception. -/
def probeUri (input : TabInput) : Except Unit (Option String) :=
  match input.uri with
  | JsField.raise => Except.error ()
  | JsField.absent => Except.ok none
  | JsField.val u =>
    match u.fsPath with
    | JsField.raise => Except.error ()
    | JsField.absent => Except.ok none
    | JsField.val p => Except.ok (some p)

/-- Probe 2b of the source:
`if (input.resource && input.resource.uri && typeof input.resource.uri.fsPath === 'string') return input.resource.uri.fsPath`. -/
def probeResource (input : TabInput) : Except Unit (Option String) :=
  match input.resource with
  | JsField.raise => Except.error ()
  | JsField.absent => Except.ok none
  | JsField.val r =>
    match r.uri with
    | JsField.raise => Except.error ()
    | JsField.absent => Except.ok none
    | JsField.val u =>
      match u.fsPath with
      | JsField.raise => Except.error ()
      | JsField.absent => Except.ok none
      | JsField.val p => Except.ok (some p)

/-- Probe 2c of the source:
`if (input.options && input.options.uri && input.options.uri.fsPath) return input.options.uri.fsPath`.
Unlike probes 2a/2b this tests the truthiness of `fsPath`, so an empty
string does not pass. -/
def probeOptions (input : TabInput) : Except Unit (Option String) :=
  match input.options with
  | JsField.raise => Except.error ()
  | JsField.absent => Except.ok none
  | JsField.val o =>
    match o.uri with
    | JsField.raise => Except.error ()
    | JsField.absent => Except.ok none
    | JsField.val u =>
      match u.fsPath with
      | JsField.raise => Except.error ()
      | JsField.absent => Except.ok none
      | JsField.val p => Except.ok (if p = "" then none else some p)

/-- JavaScript `s.includes(c)` for a single-character needle: membership of
the character in the string. -/
def jsIncludes (s : String) (c : Char) : Bool := s.toList.contains c

/-- The label heuristic of the source: if the tab's label is a string that
contains a path separator, it is returned verbatim. -/
def labelHeuristic (tab : Tab) : Option String :=
  match tab.label with
  | some lbl => if jsIncludes lbl '/' || jsIncludes lbl '\\' then some lbl else none
  | none => none

/-- The body of the `try { ... }` block of `resolveActivePath`: probe the
active tab of the active tab group (when present, and only when its `input`
is truthy) through `probeUri`, `probeResource`, `probeOptions` and finally
the label heuristic. An exception from any probe propagates out of the
block (to be caught by the enclosing `catch`). -/
def probeTabBlock (s : HostState) : Except Unit (Option String) :=
  match s.activeTabGroup with
  | none => Except.ok none
  | some g =>
    match g.activeTab with
    | none => Except.ok none
    | some tab =>
      match tab.input with
      | none => Except.ok none
      | some input =>
        match probeUri input with
        | Except.error e => Except.error e
        | Except.ok (some p) => Except.ok (some p)
        | Except.ok none =>
          match probeResource input with
          | Except.error e => Except.error e
          | Except.ok (some p) => Except.ok (some p)
          | Except.ok none =>
            match probeOptions input with
            | Except.error e => Except.error e
            | Except.ok (some p) => Except.ok (some p)
            | Except.ok none => Except.ok (labelHeuristic tab)

/-- `resolveActivePath` of the source: active text editor's document uri if
present; otherwise the tab-probing block, whose exceptions are caught and
ignored (`catch (e) { /* ignore and fall back */ }`); otherwise
`getFolder`. -/
def resolveActivePath (s : HostState) : String :=
  match editorUri s with
  | some u => u.fsPath
  | none =>
    match probeTabBlock s with
    | Except.ok (some p) => p
    | Except.ok none => getFolder s
    | Except.error _ => getFolder s

/-- `basePath` constant of `activate`. -/
def basePath : String := "/tmp"

/-- `path.join(basePath, 'editor_path.txt')`. -/
def editorPath : String := basePath ++ "/" ++ "editor_path.txt"

/-- `path.join(basePath, 'folder_path.txt')`. -/
def folderPath : String := basePath ++ "/" ++ "folder_path.txt"

/-- The log line emitted by `tryWrite` on a write failure
(`console.error('Failed to write to file:', err)`). -/
def failMsg : String := "Failed to write to file:"

/-- JavaScript `content || ''`: `none` models a falsy non-string
(undefined/null), and an empty string is falsy, so both collapse to the
empty string. -/
def jsOrEmpty (content : Option String) : String :=
  match content with
  | none => ""
  | some s => if s = "" then "" else s

/-- The observable state of the system: the filesystem (content of each
file by path) and the console-error log. -/
structure SysState where
  files : String → String
  log : List String

/-- `tryWrite` of the source: write `content || ''` to `dest`, and when the
write fails (`ok = false`), catch the error, log it, and leave the file as
it was. -/
def tryWrite (dest : String) (content : Option String) (ok : Bool) (st : SysState) : SysState :=
  if ok then
    { st with files := fun p => if p = dest then jsOrEmpty content else st.files p }
  else
    { st with log := st.log ++ [failMsg] }

/-- The events `activate` subscribes to, plus the initial startup pass. -/
inductive Event where
  | activeEditorChanged
  | tabsChanged
  | tabGroupsChanged
  | workspaceFoldersChanged
  | windowStateChanged
  | startup
deriving DecidableEq, Repr

/-- One callback invocation as wired in `activate`: given the host state
`s` and whether each attempted write succeeds (`okEditor`, `okFolder`),
perform the writes of the callback registered for `e`. -/
def handleEvent (e : Event) (s : HostState) (okEditor okFolder : Bool) (st : SysState) : SysState :=
  match e with
  | Event.activeEditorChanged =>
      tryWrite editorPath (some (resolveActivePath s)) okEditor st
  | Event.tabsChanged =>
      tryWrite folderPath (some (getFolder s)) okFolder
        (tryWrite editorPath (some (resolveActivePath s)) okEditor st)
  | Event.tabGroupsChanged =>
      tryWrite folderPath (some (getFolder s)) okFolder
        (tryWrite editorPath (some (resolveActivePath s)) okEditor st)
  | Event.workspaceFoldersChanged =>
      tryWrite folderPath (some (getFolder s)) okFolder st
  | Event.windowStateChanged =>
      tryWrite folderPath (some (getFolder s)) okFolder st
  | Event.startup =>
      tryWrite folderPath (some (getFolder s)) okFolder
        (tryWrite editorPath (some (resolveActivePath s)) okEditor st)

/-- Which events' callbacks write the active-path file. -/
def writesEditorPath : Event → Bool
  | Event.activeEditorChanged => true
  | Event.tabsChanged => true
  | Event.tabGroupsChanged => true
  | Event.workspaceFoldersChanged => false
  | Event.windowStateChanged => false
  | Event.startup => true

/-- Which events' callbacks write the active-folder file. -/
def writesFolderPath : Event → Bool
  | Event.activeEditorChanged => false
  | Event.tabsChanged => true
  | Event.tabGroupsChanged => true
  | Event.workspaceFoldersChanged => true
  | Event.windowStateChanged => true
  | Event.startup => true

/-! ## Helper lemmas and concrete states -/

theorem jsOrEmpty_some (x : String) : jsOrEmpty (some x) = x := by
  by_cases h : x = "" <;> simp [jsOrEmpty, h]

theorem editorPath_ne_folderPath : editorPath ≠ folderPath := by decide

theorem sysStateEq (X Y : SysState) (h1 : X.files = Y.files) (h2 : X.log = Y.log) :
    X = Y := by
  cases X; cases Y; simp_all

theorem tryWrite_true_files (d : String) (c : Option String) (st : SysState) :
    (tryWrite d c true st).files = fun p => if p = d then jsOrEmpty c else st.files p := by
  simp [tryWrite]

theorem tryWrite_true_log (d : String) (c : Option String) (st : SysState) :
    (tryWrite d c true st).log = st.log := by
  simp [tryWrite]

/-- Writing the same contents twice (one file) is the same as writing once. -/
theorem tryWrite_idem (d : String) (c : Option String) (st : SysState) :
    tryWrite d c true (tryWrite d c true st) = tryWrite d c true st := by
  apply sysStateEq
  · funext p
    by_cases h : p = d <;> simp [tryWrite, h]
  · simp [tryWrite]

/-- Writing the same pair of contents twice (two files, in order) is the
same as writing the pair once. -/
theorem tryWrite_pair_idem (d₁ d₂ : String) (c₁ c₂ : Option String) (st : SysState) :
    tryWrite d₂ c₂ true (tryWrite d₁ c₁ true (tryWrite d₂ c₂ true (tryWrite d₁ c₁ true st))) =
      tryWrite d₂ c₂ true (tryWrite d₁ c₁ true st) := by
  apply sysStateEq
  · funext p
    by_cases h2 : p = d₂ <;> by_cases h1 : p = d₁ <;> simp [tryWrite, h1, h2]
  · simp [tryWrite]

/-- An empty starting system state: every file empty, empty log. -/
def st0 : SysState := { files := fun _ => "", log := [] }

/-! ## Claims -/

/-- C1: whenever an active text editor exists and its document has a
resource URI, `resolveActivePath` returns that URI's `fsPath`, taking
priority over every tab-based probe (the tab group part of the state is
unconstrained), and after any active-path-writing event whose write
succeeds, the active-path file contains exactly that path. -/
theorem c1_active_editor_authoritative (s : HostState) (ed : TextEditor)
    (doc : TextDocument) (u : Uri)
    (h1 : s.activeTextEditor = some ed) (h2 : ed.document = some doc)
    (h3 : doc.uri = some u) (e : Event) (he : writesEditorPath e = true)
    (okF : Bool) (st : SysState) :
    resolveActivePath s = u.fsPath ∧
      (handleEvent e s true okF st).files editorPath = u.fsPath := by
  have hres : resolveActivePath s = u.fsPath := by
    simp [resolveActivePath, editorUri, h1, h2, h3]
  refine ⟨hres, ?_⟩
  cases e <;> cases okF <;>
    simp_all [handleEvent, tryWrite, writesEditorPath, jsOrEmpty_some,
      editorPath_ne_folderPath, Ne.symm editorPath_ne_folderPath]

/-- A tab input holding a direct uri with `fsPath` `/img/x.png`. -/
def imgInput : TabInput :=
  { uri := JsField.val { fsPath := JsField.val "/img/x.png" },
    resource := JsField.absent, options := JsField.absent }

/-- The document of C1's witness editor, on `/a/b.txt`. -/
def c1doc : TextDocument := { uri := some { fsPath := "/a/b.txt" } }

/-- The active editor of C1's witness state. -/
def c1editor : TextEditor := { document := some c1doc }

/-- Host state used as C1's witness: editor on `/a/b.txt`, with an open
tab on a different resource and an open workspace folder. -/
def c1state : HostState :=
  { activeTextEditor := some c1editor,
    activeTabGroup := some { activeTab := some { input := some imgInput, label := some "x.png" } },
    workspaceFolders := some [{ uri := { fsPath := "/proj/a" } }] }

/-- C1 witness: on a concrete state with the editor on `/a/b.txt` and a tab
open on `/img/x.png`, the active-path file ends up holding `/a/b.txt`. -/
theorem c1_active_editor_authoritative_witness :
    resolveActivePath c1state = "/a/b.txt" ∧
      (handleEvent Event.activeEditorChanged c1state true true st0).files editorPath = "/a/b.txt" :=
  c1_active_editor_authoritative c1state c1editor c1doc { fsPath := "/a/b.txt" }
    rfl rfl rfl Event.activeEditorChanged rfl true st0

/-- C10: if an active text editor exists but its document, or the
document's URI, is absent, `resolveActivePath` neither fails nor answers
from the editor step: it returns exactly what it would return on the same
state with no active editor at all. -/
theorem c10_missing_document_falls_through (s : HostState) (ed : TextEditor)
    (h1 : s.activeTextEditor = some ed)
    (h2 : ed.document = none ∨ ∃ doc, ed.document = some doc ∧ doc.uri = none) :
    resolveActivePath s = resolveActivePath { s with activeTextEditor := none } := by
  have h0 : editorUri s = none := by
    rcases h2 with h | ⟨doc, hd, hu⟩
    · simp [editorUri, h1, h]
    · simp [editorUri, h1, hd, hu]
  have h0b : editorUri { s with activeTextEditor := none } = none := rfl
  have htab : probeTabBlock { s with activeTextEditor := none } = probeTabBlock s := rfl
  have hfold : getFolder { s with activeTextEditor := none } = getFolder s := rfl
  simp only [resolveActivePath, h0, h0b]
  rw [htab, hfold]

/-- The active editor of C10's witness state: its document has no URI. -/
def c10editor : TextEditor := { document := some { uri := none } }

/-- Host state used as C10's witness: an editor whose document has no URI,
and an active tab on `/img/x.png`. -/
def c10state : HostState :=
  { activeTextEditor := some c10editor,
    activeTabGroup := some { activeTab := some { input := some imgInput, label := none } },
    workspaceFolders := none }

/-- C10 witness: with a document-less editor, resolution behaves as with no
editor, and the tab probe answers `/img/x.png`. -/
theorem c10_missing_document_falls_through_witness :
    resolveActivePath c10state = resolveActivePath { c10state with activeTextEditor := none } ∧
      resolveActivePath c10state = "/img/x.png" :=
  ⟨c10_missing_document_falls_through c10state c10editor rfl
      (Or.inr ⟨{ uri := none }, rfl, rfl⟩), rfl⟩

/-- C4: when the editor probe and the whole tab block yield nothing,
`resolveActivePath` returns the active-folder resolution; `getFolder`
returns the first workspace folder's `fsPath` when at least one folder is
open and the literal `~` when none is; and on a folderless state a
successful folder-writing event leaves exactly `~` in the active-folder
file. -/
theorem c4_folder_fallback (s : HostState) :
    (editorUri s = none → probeTabBlock s = Except.ok none →
      resolveActivePath s = getFolder s) ∧
    (∀ f rest, s.workspaceFolders = some (f :: rest) → getFolder s = f.uri.fsPath) ∧
    ((s.workspaceFolders = none ∨ s.workspaceFolders = some []) → getFolder s = "~") ∧
    (s.workspaceFolders = none → ∀ st,
      (handleEvent Event.workspaceFoldersChanged s true true st).files folderPath = "~") := by
  refine ⟨?_, ?_, ?_, ?_⟩
  · intro h1 h2
    simp [resolveActivePath, h1, h2]
  · intro f rest h
    simp [getFolder, h]
  · rintro (h | h) <;> simp [getFolder, h]
  · intro h st
    simp [handleEvent, tryWrite, getFolder, h, jsOrEmpty]

/-- Host state used as C4's witness: no editor, no tabs, no folders. -/
def c4state : HostState :=
  { activeTextEditor := none, activeTabGroup := none, workspaceFolders := none }

/-- C4 witness: on the empty host state the resolver answers the folder
fallback, which is `~`, and the folder file receives `~`. -/
theorem c4_folder_fallback_witness :
    resolveActivePath c4state = getFolder c4state ∧ getFolder c4state = "~" ∧
      (handleEvent Event.workspaceFoldersChanged c4state true true st0).files folderPath = "~" :=
  ⟨(c4_folder_fallback c4state).1 rfl rfl, (c4_folder_fallback c4state).2.2.1 (Or.inl rfl),
    (c4_folder_fallback c4state).2.2.2 rfl st0⟩

/-- C7: `tryWrite` writes the given content on success (a falsy content —
absent or the empty string — is written as the empty string, never a
sentinel), and on an I/O failure it logs the error and leaves every file's
previous contents intact. -/
theorem c7_trywrite_contract (dest : String) (content : Option String) (st : SysState) :
    (∀ x, content = some x → (tryWrite dest content true st).files dest = x) ∧
    (content = none → (tryWrite dest content true st).files dest = "") ∧
    (tryWrite dest content false st).files = st.files ∧
    (tryWrite dest content false st).log = st.log ++ [failMsg] := by
  refine ⟨?_, ?_, ?_, ?_⟩
  · intro x h
    simp [tryWrite, h, jsOrEmpty_some]
  · intro h
    simp [tryWrite, h, jsOrEmpty]
  · simp [tryWrite]
  · simp [tryWrite]

/-- C7 witness: a successful write stores the content, an absent content is
stored as the empty string, and a failed write keeps the file and logs. -/
theorem c7_trywrite_contract_witness :
    (tryWrite editorPath (some "/a/b.txt") true st0).files editorPath = "/a/b.txt" ∧
    (tryWrite editorPath none true st0).files editorPath = "" ∧
    (tryWrite editorPath (some "/a/b.txt") false st0).files = st0.files ∧
    (tryWrite editorPath (some "/a/b.txt") false st0).log = st0.log ++ [failMsg] :=
  ⟨(c7_trywrite_contract editorPath (some "/a/b.txt") st0).1 "/a/b.txt" rfl,
    (c7_trywrite_contract editorPath none st0).2.1 rfl,
    (c7_trywrite_contract editorPath (some "/a/b.txt") st0).2.2.1,
    (c7_trywrite_contract editorPath (some "/a/b.txt") st0).2.2.2⟩

/-- C8: the resolvers are pure functions of the host state, so handling the
same event twice on an unchanged host state (with the writes succeeding)
writes identical content and leaves the system state exactly as after the
first handling. -/
theorem c8_idempotent_writes (e : Event) (s : HostState) (st : SysState) :
    handleEvent e s true true (handleEvent e s true true st) = handleEvent e s true true st := by
  cases e <;> simp only [handleEvent] <;>
    first
      | exact tryWrite_idem _ _ _
      | exact tryWrite_pair_idem _ _ _ _ _

/-- C9: each callback touches only its designated file: the
active-editor-changed callback leaves the active-folder file unchanged, and
the workspace-folders-changed and window-state-changed callbacks leave the
active-path file unchanged, whether their writes succeed or fail. -/
theorem c9_frame_effects (s : HostState) (okE okF : Bool) (st : SysState) :
    (handleEvent Event.activeEditorChanged s okE okF st).files folderPath = st.files folderPath ∧
    (handleEvent Event.workspaceFoldersChanged s okE okF st).files editorPath = st.files editorPath ∧
    (handleEvent Event.windowStateChanged s okE okF st).files editorPath = st.files editorPath := by
  refine ⟨?_, ?_, ?_⟩ <;> cases okE <;> cases okF <;>
    simp [handleEvent, tryWrite, editorPath_ne_folderPath, Ne.symm editorPath_ne_folderPath]

/-- A tab input whose direct uri probe passes the `typeof fsPath` check
with the empty string, while the nested resource probe holds `/x`. -/
def c2input : TabInput :=
  { uri := JsField.val { fsPath := JsField.val "" },
    resource := JsField.val { uri := JsField.val { fsPath := JsField.val "/x" } },
    options := JsField.absent }

/-- The active tab wrapping `c2input`. -/
def c2tab : Tab := { input := some c2input, label := none }

/-- Host state with no editor, the `c2tab` tab active, no folders. -/
def c2state : HostState :=
  { activeTextEditor := none,
    activeTabGroup := some { activeTab := some c2tab },
    workspaceFolders := none }

/-- C2 counterexample: the claim says the first present, non-empty path is
returned, so here the resource probe's `/x` should win; but the direct uri
probe's `fsPath` is the empty string, which passes the code's
`typeof === 'string'` test, and the empty string is returned instead. -/
theorem c2_counterexample :
    probeUri c2input = Except.ok (some "") ∧
    probeResource c2input = Except.ok (some "/x") ∧
    resolveActivePath c2state = "" :=
  ⟨rfl, rfl, rfl⟩

/-- C2 (amended): the probes run strictly in the order direct uri, nested
resource uri, options uri, and a later probe is consulted only if every
earlier one yields nothing; but the first two probes accept any string
`fsPath`, including the empty string, and only the options probe requires
a truthy (non-empty) one. -/
theorem c2_probe_waterfall (s : HostState) (g : TabGroup) (tab : Tab) (input : TabInput)
    (h0 : editorUri s = none) (h1 : s.activeTabGroup = some g)
    (h2 : g.activeTab = some tab) (h3 : tab.input = some input) :
    (∀ p, probeUri input = Except.ok (some p) → resolveActivePath s = p) ∧
    (probeUri input = Except.ok none →
      ∀ p, probeResource input = Except.ok (some p) → resolveActivePath s = p) ∧
    (probeUri input = Except.ok none → probeResource input = Except.ok none →
      ∀ p, probeOptions input = Except.ok (some p) → resolveActivePath s = p) ∧
    (∀ r o p, probeUri ⟨JsField.val ⟨JsField.val p⟩, r, o⟩ = Except.ok (some p)) ∧
    (∀ u r, probeOptions ⟨u, r, JsField.val ⟨JsField.val ⟨JsField.val ""⟩⟩⟩ =
      Except.ok none) := by
  refine ⟨?_, ?_, ?_, ?_, ?_⟩
  · intro p hp
    simp [resolveActivePath, h0, probeTabBlock, h1, h2, h3, hp]
  · intro ha p hp
    simp [resolveActivePath, h0, probeTabBlock, h1, h2, h3, ha, hp]
  · intro ha hb p hp
    simp [resolveActivePath, h0, probeTabBlock, h1, h2, h3, ha, hb, hp]
  · intro r o p
    simp [probeUri]
  · intro u r
    simp [probeOptions]

/-- A tab input whose direct uri probe is absent and whose resource probe
holds `/x`. -/
def c2binput : TabInput :=
  { uri := JsField.absent,
    resource := JsField.val { uri := JsField.val { fsPath := JsField.val "/x" } },
    options := JsField.absent }

/-- The active tab wrapping `c2binput`. -/
def c2btab : Tab := { input := some c2binput, label := none }

/-- Host state with no editor, the `c2btab` tab active, no folders. -/
def c2bstate : HostState :=
  { activeTextEditor := none,
    activeTabGroup := some { activeTab := some c2btab },
    workspaceFolders := none }

/-- C2 witness: the empty-string uri probe wins over the resource probe,
and with the uri probe absent the resource probe is consulted. -/
theorem c2_probe_waterfall_witness :
    resolveActivePath c2state = "" ∧ resolveActivePath c2bstate = "/x" :=
  ⟨(c2_probe_waterfall c2state { activeTab := some c2tab } c2tab c2input
      rfl rfl rfl rfl).1 "" rfl,
    (c2_probe_waterfall c2bstate { activeTab := some c2btab } c2btab c2binput
      rfl rfl rfl rfl).2.1 rfl "/x" rfl⟩

/-- A tab that exposes no input object, only a display label containing a
path separator. -/
def c3tab : Tab := { input := none, label := some "folder/readme.md" }

/-- Host state with no editor, the label-only `c3tab` tab active, no
folders. -/
def c3state : HostState :=
  { activeTextEditor := none,
    activeTabGroup := some { activeTab := some c3tab },
    workspaceFolders := none }

/-- C3 counterexample: the active tab carries no resolvable resource object
(its input is absent) and its label `folder/readme.md` contains a
separator, so the claim says the label is returned; but the label heuristic
of the code sits inside the `activeTab.input` truthiness guard, so the code
skips it and returns the folder fallback `~`. -/
theorem c3_counterexample :
    c3tab.input = none ∧ c3tab.label = some "folder/readme.md" ∧
      resolveActivePath c3state = "~" :=
  ⟨rfl, rfl, rfl⟩

/-- C3 (amended): the label heuristic applies only when the active tab has
a truthy input object all of whose probes yield nothing; then a string
label containing `/` or `\` is returned verbatim, and a successful
active-path write stores exactly that label. -/
theorem c3_label_heuristic (s : HostState) (g : TabGroup) (tab : Tab) (input : TabInput)
    (lbl : String) (h0 : editorUri s = none) (h1 : s.activeTabGroup = some g)
    (h2 : g.activeTab = some tab) (h3 : tab.input = some input)
    (h4 : probeUri input = Except.ok none)
    (h5 : probeResource input = Except.ok none)
    (h6 : probeOptions input = Except.ok none)
    (h7 : tab.label = some lbl)
    (h8 : (jsIncludes lbl '/' || jsIncludes lbl '\\') = true) :
    resolveActivePath s = lbl ∧
      ∀ st, (handleEvent Event.tabsChanged s true true st).files editorPath = lbl := by
  have hres : resolveActivePath s = lbl := by
    simp [resolveActivePath, h0, probeTabBlock, h1, h2, h3, h4, h5, h6,
      labelHeuristic, h7, h8]
  refine ⟨hres, ?_⟩
  intro st
  simp [handleEvent, tryWrite, hres, jsOrEmpty_some, editorPath_ne_folderPath,
    Ne.symm editorPath_ne_folderPath]

/-- A tab input none of whose probes yields anything. -/
def c3binput : TabInput :=
  { uri := JsField.absent, resource := JsField.absent, options := JsField.absent }

/-- A tab with an unresolvable input and the label `folder/readme.md`. -/
def c3btab : Tab := { input := some c3binput, label := some "folder/readme.md" }

/-- Host state with no editor and the `c3btab` tab active. -/
def c3bstate : HostState :=
  { activeTextEditor := none,
    activeTabGroup := some { activeTab := some c3btab },
    workspaceFolders := none }

/-- C3 witness: with an input-bearing but unresolvable tab labelled
`folder/readme.md`, the label is returned and written to the active-path
file. -/
theorem c3_label_heuristic_witness :
    resolveActivePath c3bstate = "folder/readme.md" ∧
      (handleEvent Event.tabsChanged c3bstate true true st0).files editorPath
        = "folder/readme.md" := by
  have h := c3_label_heuristic c3bstate { activeTab := some c3btab } c3btab c3binput
    "folder/readme.md" rfl rfl rfl rfl rfl rfl rfl rfl (by decide)
  exact ⟨h.1, h.2 st0⟩

/-- A tab input whose direct uri access throws, while the nested resource
probe holds `/x`. -/
def c5input : TabInput :=
  { uri := JsField.raise,
    resource := JsField.val { uri := JsField.val { fsPath := JsField.val "/x" } },
    options := JsField.absent }

/-- The active tab wrapping `c5input`. -/
def c5tab : Tab := { input := some c5input, label := none }

/-- Host state with no editor, the throwing `c5tab` tab active, no
folders. -/
def c5state : HostState :=
  { activeTextEditor := none,
    activeTabGroup := some { activeTab := some c5tab },
    workspaceFolders := none }

/-- C5 counterexample: the direct uri probe throws while the very next
probe holds `/x`; the claim says the failing step yields no value and
resolution proceeds to the next step, which would return `/x`, but the
code's catch abandons the whole tab block and returns the folder fallback
`~`. -/
theorem c5_counterexample :
    probeUri c5input = Except.error () ∧
    probeResource c5input = Except.ok (some "/x") ∧
    resolveActivePath c5state = "~" :=
  ⟨rfl, rfl, rfl⟩

/-- C5 (amended): a value thrown in any tab-probing step is caught by the
single catch around the whole tab block: the remaining tab probes and the
label heuristic are skipped, and resolution proceeds directly to the
active-folder fallback, still returning a value. -/
theorem c5_throw_skips_to_folder (s : HostState) (h0 : editorUri s = none)
    (h : probeTabBlock s = Except.error ()) :
    resolveActivePath s = getFolder s := by
  simp [resolveActivePath, h0, h]

/-- C5 witness: on the concrete throwing state, resolution returns the
folder fallback. -/
theorem c5_throw_skips_to_folder_witness :
    probeTabBlock c5state = Except.error () ∧
      resolveActivePath c5state = getFolder c5state :=
  ⟨rfl, c5_throw_skips_to_folder c5state rfl rfl⟩

/-- A tab input whose direct uri access throws and with nothing else. -/
def c6input : TabInput :=
  { uri := JsField.raise, resource := JsField.absent, options := JsField.absent }

/-- Host state with no editor and a tab whose probing throws. -/
def c6state : HostState :=
  { activeTextEditor := none,
    activeTabGroup := some { activeTab := some { input := some c6input, label := none } },
    workspaceFolders := none }

/-- C6 counterexample: a failure occurs during resolution (the tab probe
throws), the callback completes and writes the fallback, but the log stays
empty: the resolution failure is caught yet not logged, contrary to the
claim that any failure during resolution is caught and logged. -/
theorem c6_counterexample :
    probeTabBlock c6state = Except.error () ∧
      (handleEvent Event.activeEditorChanged c6state true true st0).log = [] ∧
      (handleEvent Event.activeEditorChanged c6state true true st0).files editorPath = "~" :=
  ⟨rfl, rfl, rfl⟩

/-- C6 (amended): every callback is a total function of the host state —
failures during tab probing are caught inside `resolveActivePath` and
failures during writing inside `tryWrite`, so no exception propagates to
the host — and the log grows by exactly one entry per failed write: a
resolution failure contributes no log entry. -/
theorem c6_callbacks_contained (e : Event) (s : HostState) (okE okF : Bool) (st : SysState) :
    (handleEvent e s okE okF st).log =
      st.log ++ (if writesEditorPath e = true ∧ okE = false then [failMsg] else [])
        ++ (if writesFolderPath e = true ∧ okF = false then [failMsg] else []) := by
  cases e <;> cases okE <;> cases okF <;>
    simp [handleEvent, tryWrite, writesEditorPath, writesFolderPath]

end Pathfinder
